import Mathlib

set_option linter.unusedVariables false
set_option maxRecDepth 4000

/-!
Verification of the fb_webhook repository: event classification
(`utils/webhook_parser.py`), dispatch policy and forwarding
(`utils/webhook_forwarder.py`), retry queue (`utils/retry_manager.py`),
persistence (`database.py`), and the HTTP orchestration layer (`routes.py`),
shallowly embedded as executable Lean definitions.
-/

/-- Model of the Python value domain used by the webhook code: JSON-shaped
dynamic values plus Python's `None`.  Dictionaries are association lists in
insertion order with unique keys (as built by the source, which only ever
constructs literal dicts or assigns fresh keys). -/
inductive PyVal where
  | null
  | bool (b : Bool)
  | int (n : Int)
  | str (s : String)
  | list (xs : List PyVal)
  | dict (fields : List (String × PyVal))
deriving Repr

mutual

/-- Decidable equality on `PyVal` (Python `==` on the JSON-shaped fragment
the source manipulates). -/
def PyVal.decEq : (a b : PyVal) → Decidable (a = b)
  | .null, .null => .isTrue rfl
  | .bool a, .bool b =>
    match Bool.decEq a b with
    | .isTrue h => .isTrue (by rw [h])
    | .isFalse h => .isFalse (by intro he; cases he; exact h rfl)
  | .int a, .int b =>
    match Int.decEq a b with
    | .isTrue h => .isTrue (by rw [h])
    | .isFalse h => .isFalse (by intro he; cases he; exact h rfl)
  | .str a, .str b =>
    match String.decEq a b with
    | .isTrue h => .isTrue (by rw [h])
    | .isFalse h => .isFalse (by intro he; cases he; exact h rfl)
  | .list xs, .list ys =>
    match PyVal.decEqList xs ys with
    | .isTrue h => .isTrue (by rw [h])
    | .isFalse h => .isFalse (by intro he; cases he; exact h rfl)
  | .dict fs, .dict gs =>
    match PyVal.decEqFields fs gs with
    | .isTrue h => .isTrue (by rw [h])
    | .isFalse h => .isFalse (by intro he; cases he; exact h rfl)
  | .null, .bool _ => .isFalse (by intro h; cases h)
  | .null, .int _ => .isFalse (by intro h; cases h)
  | .null, .str _ => .isFalse (by intro h; cases h)
  | .null, .list _ => .isFalse (by intro h; cases h)
  | .null, .dict _ => .isFalse (by intro h; cases h)
  | .bool _, .null => .isFalse (by intro h; cases h)
  | .bool _, .int _ => .isFalse (by intro h; cases h)
  | .bool _, .str _ => .isFalse (by intro h; cases h)
  | .bool _, .list _ => .isFalse (by intro h; cases h)
  | .bool _, .dict _ => .isFalse (by intro h; cases h)
  | .int _, .null => .isFalse (by intro h; cases h)
  | .int _, .bool _ => .isFalse (by intro h; cases h)
  | .int _, .str _ => .isFalse (by intro h; cases h)
  | .int _, .list _ => .isFalse (by intro h; cases h)
  | .int _, .dict _ => .isFalse (by intro h; cases h)
  | .str _, .null => .isFalse (by intro h; cases h)
  | .str _, .bool _ => .isFalse (by intro h; cases h)
  | .str _, .int _ => .isFalse (by intro h; cases h)
  | .str _, .list _ => .isFalse (by intro h; cases h)
  | .str _, .dict _ => .isFalse (by intro h; cases h)
  | .list _, .null => .isFalse (by intro h; cases h)
  | .list _, .bool _ => .isFalse (by intro h; cases h)
  | .list _, .int _ => .isFalse (by intro h; cases h)
  | .list _, .str _ => .isFalse (by intro h; cases h)
  | .list _, .dict _ => .isFalse (by intro h; cases h)
  | .dict _, .null => .isFalse (by intro h; cases h)
  | .dict _, .bool _ => .isFalse (by intro h; cases h)
  | .dict _, .int _ => .isFalse (by intro h; cases h)
  | .dict _, .str _ => .isFalse (by intro h; cases h)
  | .dict _, .list _ => .isFalse (by intro h; cases h)
termination_by structural a => a

/-- Decidable equality on lists of `PyVal`. -/
def PyVal.decEqList : (xs ys : List PyVal) → Decidable (xs = ys)
  | [], [] => .isTrue rfl
  | [], _ :: _ => .isFalse (by intro h; cases h)
  | _ :: _, [] => .isFalse (by intro h; cases h)
  | x :: xs, y :: ys =>
    match PyVal.decEq x y with
    | .isTrue h1 =>
      match PyVal.decEqList xs ys with
      | .isTrue h2 => .isTrue (by rw [h1, h2])
      | .isFalse h2 => .isFalse (by intro he; injection he with a b; exact h2 b)
    | .isFalse h1 => .isFalse (by intro he; injection he with a b; exact h1 a)
termination_by structural xs => xs

/-- Decidable equality on dict field lists. -/
def PyVal.decEqFields : (fs gs : List (String × PyVal)) → Decidable (fs = gs)
  | [], [] => .isTrue rfl
  | [], _ :: _ => .isFalse (by intro h; cases h)
  | _ :: _, [] => .isFalse (by intro h; cases h)
  | (k, v) :: fs, (k', v') :: gs =>
    match String.decEq k k' with
    | .isTrue hk =>
      match PyVal.decEq v v' with
      | .isTrue hv =>
        match PyVal.decEqFields fs gs with
        | .isTrue h2 => .isTrue (by rw [hk, hv, h2])
        | .isFalse h2 => .isFalse (by intro he; injection he with a b; exact h2 b)
      | .isFalse hv =>
        .isFalse (by
          intro he; injection he with a b
          exact hv (congrArg Prod.snd a))
    | .isFalse hk =>
      .isFalse (by
        intro he; injection he with a b
        exact hk (congrArg Prod.fst a))
termination_by structural fs => fs

end

instance : DecidableEq PyVal := PyVal.decEq

/-- `d.get(k)`: on dicts, lookup with Python's `None` default; the source only
calls `.get` on values that are dicts at runtime, so the non-dict case
(which would raise `AttributeError` in Python) is mapped to `None`. -/
def PyVal.get : PyVal → String → PyVal
  | .dict fs, k =>
    match fs.find? (fun p => decide (p.1 = k)) with
    | Option.some p => p.2
    | Option.none => .null
  | _, _ => .null

/-- `d.get(k, default)` with an explicit default. -/
def PyVal.getD : PyVal → String → PyVal → PyVal
  | .dict fs, k, dflt =>
    match fs.find? (fun p => decide (p.1 = k)) with
    | Option.some p => p.2
    | Option.none => dflt
  | _, _, dflt => dflt

/-- `k in d` for dicts (the only use of `in` in the source). -/
def PyVal.hasKey : PyVal → String → Bool
  | .dict fs, k => fs.any (fun p => decide (p.1 = k))
  | _, _ => false

/-- Python truthiness for the values the source tests with `if x:`. -/
def PyVal.truthy : PyVal → Bool
  | .null => false
  | .bool b => b
  | .int n => decide (n ≠ 0)
  | .str s => decide (s ≠ "")
  | .list xs => !xs.isEmpty
  | .dict fs => !fs.isEmpty

/-- Iterating a Python value as a list (`for x in v`); the source only
iterates values that are lists. -/
def PyVal.toListD : PyVal → List PyVal
  | .list xs => xs
  | _ => []

/-- `d[k] = v` on a dict: replace in place if the key exists (keeping its
position, as Python dicts do), otherwise append. -/
def setField : List (String × PyVal) → String → PyVal → List (String × PyVal)
  | [], k, v => [(k, v)]
  | (k', v') :: rest, k, v =>
    if k' = k then (k, v) :: rest else (k', v') :: setField rest k v

/-- `d[k] = v` lifted to `PyVal` (non-dicts are left unchanged; the source
only assigns into dicts). -/
def PyVal.setKey : PyVal → String → PyVal → PyVal
  | .dict fs, k, v => .dict (setField fs k v)
  | other, _, _ => other

/-!
## Event Classifier — `utils/webhook_parser.py`
-/

/-- The classifier's output record: `structured_data` as built by
`extract_structured_data` (webhook_parser.py, lines 48-55).  `page_id` is the
raw value of `entry.get("id")` (possibly Python `None`); `event_type` is
always assigned string literals by the source, so it is a `String` here. -/
structure StructuredData where
  time_id : Nat
  version_api : String
  type : String
  page_id : PyVal
  event_type : String
  data : PyVal
deriving Repr, DecidableEq

/-- The initial `structured_data` dict of `extract_structured_data`
(webhook_parser.py, lines 46-55). -/
def initStructuredData (timeId : Nat) : StructuredData :=
  { time_id := timeId
    version_api := "21-03: 17.00"
    type := "fb_event_in"
    page_id := .null
    event_type := "unknown"
    data := .dict [] }

/-- `EventHandler.handle_message` (webhook_parser.py, lines 144-162). -/
def handle_message (messaging : PyVal) (sd : StructuredData) : StructuredData :=
  let sender_id := (messaging.getD "sender" (.dict [])).get "id"
  let recipient_id := (messaging.getD "recipient" (.dict [])).get "id"
  let message := messaging.getD "message" (.dict [])
  { sd with
    event_type := "message"
    data := .dict
      [ ("sender_id", sender_id)
      , ("recipient_id", recipient_id)
      , ("message_id", message.get "mid")
      , ("text", message.get "text")
      , ("timestamp", messaging.get "timestamp") ] }

/-- `EventHandler.handle_notification_messages` (webhook_parser.py, lines
164-191).  Returns `none` when `optin.get("type")` is not the string
`"notification_messages"`.  The status toggle (line 174) uses Python
truthiness: `new_status = "AVAILABLE" if not current_status or
current_status == "RESUME_NOTIFICATIONS" else "NOT_AVAILABLE"`. -/
def handle_notification_messages (messaging : PyVal) (sd : StructuredData) :
    Option StructuredData :=
  let optin := messaging.getD "optin" (.dict [])
  if optin.get "type" ≠ PyVal.str "notification_messages" then Option.none
  else
    let token := optin.get "notification_messages_token"
    let current_status := optin.get "notification_messages_status"
    let new_status : String :=
      if !current_status.truthy ∨ current_status = PyVal.str "RESUME_NOTIFICATIONS"
      then "AVAILABLE" else "NOT_AVAILABLE"
    Option.some
      { sd with
        event_type := "notification_messages"
        data := .dict
          [ ("sender_id", (messaging.getD "sender" (.dict [])).get "id")
          , ("recipient_id", (messaging.getD "recipient" (.dict [])).get "id")
          , ("notification_messages_token", token)
          , ("token_expiry_timestamp", optin.get "token_expiry_timestamp")
          , ("user_token_status", optin.get "user_token_status")
          , ("notification_messages_timezone", optin.get "notification_messages_timezone")
          , ("title", optin.get "title")
          , ("notification_messages_status", .str new_status) ] }

/-- One screen response accumulation step of `handle_address_form`
(webhook_parser.py, lines 202-209): `address_data[key] = value` for truthy
key and value.  Non-string truthy keys cannot arise from the JSON payloads
the endpoint parses into string-keyed dicts. -/
def addressRespStep (acc : List (String × PyVal)) (resp : PyVal) :
    List (String × PyVal) :=
  let key := resp.get "key"
  let value := resp.get "value"
  match key with
  | .str k => if key.truthy ∧ value.truthy then setField acc k value else acc
  | _ => acc

/-- `EventHandler.handle_address_form` (webhook_parser.py, lines 193-223). -/
def handle_address_form (messaging : PyVal) (sd : StructuredData) : StructuredData :=
  let customer_info := messaging.getD "messaging_customer_information" (.dict [])
  let address_data :=
    (customer_info.getD "screens" (.list [])).toListD.foldl
      (fun acc screen =>
        if screen.get "screen_id" = PyVal.str "Add address" then
          (screen.getD "responses" (.list [])).toListD.foldl addressRespStep acc
        else acc) []
  { sd with
    event_type := "address_form"
    data := .dict
      [ ("sender_id", (messaging.getD "sender" (.dict [])).get "id")
      , ("recipient_id", (messaging.getD "recipient" (.dict [])).get "id")
      , ("timestamp", messaging.get "timestamp")
      , ("address", .dict address_data) ] }

/-- `EventHandler.handle_comment` (webhook_parser.py, lines 225-253).
Returns `none` — the anti-loop suppression — exactly when the comment
author id equals the entry's page id (line 233). -/
def handle_comment (value : PyVal) (sd : StructuredData) : Option StructuredData :=
  let sender := value.getD "from" (.dict [])
  let sender_id := sender.get "id"
  if sender_id = sd.page_id then Option.none
  else
    Option.some
      { sd with
        event_type := "comment"
        data := .dict
          [ ("sender_id", sender_id)
          , ("sender_name", sender.get "name")
          , ("post_id", value.get "post_id")
          , ("comment_id", value.get "comment_id")
          , ("message", value.get "message")
          , ("created_time", value.get "created_time")
          , ("parent_id", value.get "parent_id")
          , ("is_hidden", value.getD "is_hidden" (.bool false))
          , ("is_private", value.getD "is_private" (.bool false)) ] }

/-- Splitting a character list on a separator character, with Python's
`str.split(sep)` semantics for a one-character separator: the result is
non-empty and adjacent separators produce empty pieces. -/
def splitChar (sep : Char) : List Char → List (List Char)
  | [] => [[]]
  | c :: rest =>
    match splitChar sep rest with
    | [] => [[]]
    | h :: t => if c = sep then [] :: h :: t else (c :: h) :: t

/-- `post_id.split("_") if post_id else ["", ""]` (webhook_parser.py, lines
264 and 292).  A falsy `post_id` (absent, `None`, or `""`) yields
`["", ""]`.  A truthy non-string `post_id` would raise in Python and does
not occur in feed payloads. -/
def postIdParts (post_id : PyVal) : List String :=
  match post_id with
  | .str s =>
    if s = "" then ["", ""]
    else (splitChar '_' s.data).map (fun cs => { data := cs })
  | _ => ["", ""]

/-- `EventHandler.handle_reaction` (webhook_parser.py, lines 255-282). -/
def handle_reaction (value : PyVal) (sd : StructuredData) : StructuredData :=
  let post_id := value.get "post_id"
  let post_parts := postIdParts post_id
  let page_id := post_parts.headD ""
  let post_number := post_parts.getD 1 ""
  { sd with
    event_type := "reaction"
    data := .dict
      [ ("sender_id", (value.getD "from" (.dict [])).get "id")
      , ("sender_name", (value.getD "from" (.dict [])).get "name")
      , ("post_id", post_id)
      , ("reaction_type", value.get "reaction_type")
      , ("created_time", value.get "created_time")
      , ("page_id", .str page_id)
      , ("post_number", .str post_number) ] }

/-- `EventHandler.handle_like` (webhook_parser.py, lines 284-309). -/
def handle_like (value : PyVal) (sd : StructuredData) : StructuredData :=
  let post_id := value.get "post_id"
  let post_parts := postIdParts post_id
  let page_id := post_parts.headD ""
  let post_number := post_parts.getD 1 ""
  { sd with
    event_type := "like"
    data := .dict
      [ ("sender_id", (value.getD "from" (.dict [])).get "id")
      , ("sender_name", (value.getD "from" (.dict [])).get "name")
      , ("post_id", post_id)
      , ("created_time", value.get "created_time")
      , ("page_id", .str page_id)
      , ("post_number", .str post_number) ] }

/-- `EventHandler.handle_post_creation` (webhook_parser.py, lines 311-332). -/
def handle_post_creation (value : PyVal) (sd : StructuredData) : StructuredData :=
  { sd with
    event_type := "post_creation"
    data := .dict
      [ ("sender_id", (value.getD "from" (.dict [])).get "id")
      , ("sender_name", (value.getD "from" (.dict [])).get "name")
      , ("post_id", value.get "post_id")
      , ("message", value.get "message")
      , ("created_time", value.get "created_time")
      , ("type", value.getD "type" (.str "status")) ] }

/-- `EventHandler.handle_photo_post` (webhook_parser.py, lines 334-356). -/
def handle_photo_post (value : PyVal) (sd : StructuredData) : StructuredData :=
  { sd with
    event_type := "photo_post"
    data := .dict
      [ ("sender_id", (value.getD "from" (.dict [])).get "id")
      , ("sender_name", (value.getD "from" (.dict [])).get "name")
      , ("post_id", value.get "post_id")
      , ("message", value.get "message")
      , ("created_time", value.get "created_time")
      , ("photo_id", value.get "photo_id")
      , ("type", .str "photo") ] }

/-- `_parse_messaging_event` (webhook_parser.py, lines 80-103).  The loop
body unconditionally returns on its first iteration, so only the first
messaging item matters; an empty list returns `None`. -/
def parse_messaging_event (entry : PyVal) (sd : StructuredData) :
    Option StructuredData :=
  match (entry.getD "messaging" (.list [])).toListD with
  | [] => Option.none
  | messaging :: _ =>
    if messaging.hasKey "optin" then handle_notification_messages messaging sd
    else if messaging.hasKey "messaging_customer_information" then
      Option.some (handle_address_form messaging sd)
    else Option.some (handle_message messaging sd)

/-- Loop body of `_parse_changes_event` (webhook_parser.py, lines 116-139):
iterate the changes; a matched `comment` change returns the handler's
result (possibly the `None` suppression) immediately, the other matched
items return their handler's result, unmatched changes continue. -/
def parse_changes_list (sd : StructuredData) : List PyVal → Option StructuredData
  | [] => Option.none
  | change :: rest =>
    let value := change.getD "value" (.dict [])
    let field := change.getD "field" (.str "")
    if field = PyVal.str "feed" then
      let item := value.get "item"
      let verb := value.get "verb"
      if item = PyVal.str "comment" then handle_comment value sd
      else if item = PyVal.str "reaction" then Option.some (handle_reaction value sd)
      else if item = PyVal.str "like" then Option.some (handle_like value sd)
      else if item = PyVal.str "status" ∧ verb = PyVal.str "add" then
        Option.some (handle_post_creation value sd)
      else if item = PyVal.str "photo" ∧ verb = PyVal.str "add" then
        Option.some (handle_photo_post value sd)
      else parse_changes_list sd rest
    else parse_changes_list sd rest

/-- `_parse_changes_event` (webhook_parser.py, lines 105-139). -/
def parse_changes_event (entry : PyVal) (sd : StructuredData) :
    Option StructuredData :=
  parse_changes_list sd (entry.getD "changes" (.list [])).toListD

/-- The entry loop of `extract_structured_data` (webhook_parser.py, lines
58-78).  `structured_data['page_id']` is (re)assigned per entry; a truthy
messaging result returns it; an entry carrying `"changes"` always returns
(the parsed event, or `None` to signal a skip); otherwise the loop
continues and finally returns the accumulated `structured_data`. -/
def classifyEntries (sd : StructuredData) : List PyVal → Option StructuredData
  | [] => Option.some sd
  | entry :: rest =>
    let sd := { sd with page_id := entry.get "id" }
    match (if entry.hasKey "messaging" then parse_messaging_event entry sd
           else Option.none) with
    | Option.some result => Option.some result
    | Option.none =>
      if entry.hasKey "changes" then
        match parse_changes_event entry sd with
        | Option.some result => Option.some result
        | Option.none => Option.none
      else classifyEntries sd rest

/-- `extract_structured_data` (webhook_parser.py, lines 36-78): the Event
Classifier.  `timeId` stands for the request-scoped `time.time()`. -/
def extract_structured_data (timeId : Nat) (raw_data : PyVal) :
    Option StructuredData :=
  classifyEntries (initStructuredData timeId) (raw_data.getD "entry" (.list [])).toListD

/-!
## Dispatch Policy, Metadata Extractor, Forwarder — `utils/webhook_forwarder.py`
-/

/-- `should_process_async` (webhook_forwarder.py, lines 179-199).
`data_size` stands for `len(json.dumps(data))`, the serialized size the
source computes at line 195; the decision depends on `data` only through
that size. -/
def should_process_async (event_type : String) (data_size : Nat) : Bool :=
  if event_type ∈ (["comment", "post_creation", "photo_post"] : List String) then
    true
  else
    let high_priority_events : List String := ["order_created", "payment_received"]
    let large_data_threshold : Nat := 10000
    if event_type ∈ high_priority_events then true
    else if data_size > large_data_threshold then true
    else false

/-- `metadata["message_preview"] = data["text"][:50]` guarded by
`"text" in data and isinstance(data["text"], str)` (webhook_forwarder.py,
line 119): produced only when the key holds a string. -/
def strPreviewField (name : String) (v : PyVal) : List (String × PyVal) :=
  match v with
  | .str s => [(name, .str (s.take 50))]
  | _ => []

/-- `metadata[k] = data[k]` guarded by `k in data`. -/
def copyField (data : PyVal) (srcKey dstKey : String) : List (String × PyVal) :=
  if data.hasKey srcKey then [(dstKey, data.get srcKey)] else []

/-- `extract_essential_metadata` (webhook_forwarder.py, lines 109-177):
base `source` field, an event-type-specific block, then the
`is_metadata_only` / `full_data_available_in_db` flags, in the source's
insertion order. -/
def extract_essential_metadata (event_type : String) (data : PyVal) : PyVal :=
  let base : List (String × PyVal) := [("source", .str "facebook_webhook")]
  let specific : List (String × PyVal) :=
    if event_type = "message" then
      copyField data "sender_id" "sender_id"
      ++ strPreviewField "message_preview" (if data.hasKey "text" then data.get "text" else .null)
      ++ copyField data "timestamp" "original_timestamp"
    else if event_type = "comment" then
      copyField data "sender_id" "sender_id"
      ++ copyField data "post_id" "post_id"
      ++ copyField data "comment_id" "comment_id"
    else if event_type = "reaction" ∨ event_type = "like" then
      copyField data "sender_id" "sender_id"
      ++ copyField data "post_id" "post_id"
      ++ copyField data "reaction_type" "reaction_type"
    else if event_type = "post_creation" then
      copyField data "sender_id" "sender_id"
      ++ copyField data "post_id" "post_id"
      ++ strPreviewField "post_preview" (if data.hasKey "message" then data.get "message" else .null)
      ++ copyField data "created_time" "created_time"
      ++ copyField data "type" "post_type"
    else if event_type = "photo_post" then
      copyField data "sender_id" "sender_id"
      ++ copyField data "post_id" "post_id"
      ++ strPreviewField "post_preview" (if data.hasKey "message" then data.get "message" else .null)
      ++ copyField data "created_time" "created_time"
      ++ copyField data "photo_id" "photo_id"
      ++ [("has_photo", .bool true)]
    else []
  .dict (base ++ specific
    ++ [("is_metadata_only", .bool true), ("full_data_available_in_db", .bool true)])

/-- The backend's reply to one delivery attempt, as observed by
`forward_to_backend`: an HTTP status with its body text (and the body's
JSON parse when it parses), a connection-level failure
(`httpx.ConnectError`), or a timeout (`httpx.TimeoutException`). -/
inductive NetResult where
  | status (code : Nat) (text : String) (jsonBody : Option PyVal)
  | connectError (msg : String)
  | timeoutError (msg : String)
deriving Repr, DecidableEq

/-- `ForwardOutcome`: the dict returned by `forward_to_backend`; keys the
source omits on a given path are `none`. -/
structure ForwardOutcome where
  success : Bool
  status_code : Option Nat := Option.none
  sync : Option Bool := Option.none
  response : Option PyVal := Option.none
  error : Option String := Option.none
deriving Repr, DecidableEq

/-- Observable side effects of one `forward_to_backend` call:
`sentPayloadData` is the `data` field of the POSTed payload (metadata or
full data per the dispatch policy, webhook_forwarder.py line 36), or
`none` when no request is made; `logFailedForwardCalled` records whether
`log_failed_forward` ran (a print-only stub, lines 201-215);
`addToRetryCalled` records whether `RetryManager.add_to_retry` was
invoked — the source never calls it from this path (nor anywhere else:
`retry_manager` has no call sites outside retry_manager.py). -/
structure ForwardEffects where
  sentPayloadData : Option PyVal
  logFailedForwardCalled : Bool
  addToRetryCalled : Bool
deriving Repr, DecidableEq

/-- `forward_to_backend` (webhook_forwarder.py, lines 9-107).
`enableForwarding` is `Config.ENABLE_FORWARDING`; `data_size` is
`len(json.dumps(data))` for the dispatch policy; `res` is the network
outcome of the POST.  A 200 whose non-empty body is not valid JSON makes
`response.json()` (line 65) raise, which the outer `except` (lines
97-107) turns into a failure after calling `log_failed_forward` with
status 0. -/
def forward_to_backend (enableForwarding : Bool) (document_id : String)
    (event_type : String) (data : PyVal) (data_size : Nat) (res : NetResult) :
    ForwardOutcome × ForwardEffects :=
  if !enableForwarding then
    ({ success := false, error := Option.some "Forwarding is disabled" },
     { sentPayloadData := Option.none, logFailedForwardCalled := false,
       addToRetryCalled := false })
  else
    let is_async_event := should_process_async event_type data_size
    let metadata := extract_essential_metadata event_type data
    let payload_data := if is_async_event then metadata else data
    let sent := Option.some payload_data
    match res with
    | .status code text jsonBody =>
      if code = 200 then
        if text ≠ "" ∧ jsonBody = Option.none then
          ({ success := false, error := Option.some "JSONDecodeError" },
           { sentPayloadData := sent, logFailedForwardCalled := true,
             addToRetryCalled := false })
        else
          ({ success := true, status_code := Option.some 200,
             sync := Option.some true,
             response := if text = "" then Option.none else jsonBody },
           { sentPayloadData := sent, logFailedForwardCalled := false,
             addToRetryCalled := false })
      else if code = 201 ∨ code = 202 then
        ({ success := true, status_code := Option.some code,
           sync := Option.some false },
         { sentPayloadData := sent, logFailedForwardCalled := false,
           addToRetryCalled := false })
      else
        ({ success := false, status_code := Option.some code,
           error := Option.some text },
         { sentPayloadData := sent, logFailedForwardCalled := true,
           addToRetryCalled := false })
    | .connectError msg =>
      ({ success := false, error := Option.some ("Connection error: " ++ msg) },
       { sentPayloadData := sent, logFailedForwardCalled := false,
         addToRetryCalled := false })
    | .timeoutError msg =>
      ({ success := false, error := Option.some ("Timeout error: " ++ msg) },
       { sentPayloadData := sent, logFailedForwardCalled := false,
         addToRetryCalled := false })

/-!
## Retry Queue Manager — `utils/retry_manager.py`
-/

/-- A queue entry of `RetryManager.retry_queue` (retry_manager.py, lines
27-31): the payload and its `retry_count` (the `last_retry_time` wall-clock
field carries no control-flow weight and is omitted). -/
structure RetryItem where
  data : PyVal
  retry_count : Nat
deriving Repr, DecidableEq

/-- The `retry_queue` dict, insertion-ordered, keyed by the enqueue
timestamp `str(datetime.now().timestamp())`; the clock reading is modelled
as a `Nat` key supplied by the caller (distinct calls read distinct
clocks). -/
abbrev RetryQueue := List (Nat × RetryItem)

/-- `RetryManager.max_retries` (retry_manager.py, line 14). -/
def max_retries : Nat := 3

/-- `RetryManager.max_queue_size` (retry_manager.py, line 17). -/
def max_queue_size : Nat := 100

/-- `key ∈ dict` assignment for the retry queue (Python dict semantics:
overwrite in place on an existing key, append otherwise). -/
def retrySet : RetryQueue → Nat → RetryItem → RetryQueue
  | [], k, it => [(k, it)]
  | (k', it') :: rest, k, it =>
    if k' = k then (k, it) :: rest else (k', it') :: retrySet rest k it

/-- `RetryManager.add_to_retry` (retry_manager.py, lines 19-35): when the
queue already holds `max_queue_size` items the request is dropped with a
warning (returned as the `Bool`); otherwise the item is stored under the
fresh timestamp key with the given `retry_count` (default 0).  Starting
the background drain task (lines 33-35) is modelled separately by
`process_retry_queue`. -/
def add_to_retry (q : RetryQueue) (key : Nat) (data : PyVal)
    (retry_count : Nat := 0) : RetryQueue × Bool :=
  if q.length ≥ max_queue_size then (q, true)
  else (retrySet q key { data := data, retry_count := retry_count }, false)

/-- Folding `add_to_retry` over a list of (fresh key, payload) pairs;
returns the final queue and the number of drop warnings. -/
def enqueueAll : List (Nat × PyVal) → RetryQueue → RetryQueue × Nat
  | [], q => (q, 0)
  | (k, d) :: rest, q =>
    let step := add_to_retry q k d
    let tail := enqueueAll rest step.1
    (tail.1, (if step.2 then 1 else 0) + tail.2)

/-- The per-item attempt loop carved out of `RetryManager.process_retry_queue`
(retry_manager.py, lines 39-69).  The front dict key stays first until its
item is deleted, so the `while` loop works on one item to completion:
while `retry_count < max_retries` it attempts delivery (`forward_data`,
whose success on the n-th overall attempt is the oracle `net n`); success
deletes the item, failure increments `retry_count`; once
`retry_count` reaches `max_retries` the item is deleted without a further
attempt.  `fuel` is `max_retries - retry_count`, the number of attempts
still permitted; the returned list records the `retry_count` value at each
attempt actually made. -/
def attemptLoop (net : Nat → Bool) : Nat → Nat → Nat → List Nat
  | 0, _, _ => []
  | fuel + 1, n, rc =>
    if net n then [rc] else rc :: attemptLoop net fuel (n + 1) (rc + 1)

/-- `RetryManager.process_retry_queue` (retry_manager.py, lines 37-71),
drained to completion: processes the queue front-first, attempting each
item at most `max_retries - retry_count` times, and returns the attempt
log as (key, `retry_count` at the attempt) pairs.  `n` numbers the overall
delivery attempts fed to the network oracle `net`. -/
def process_retry_queue (net : Nat → Bool) (n : Nat) : RetryQueue → List (Nat × Nat)
  | [] => []
  | (k, it) :: rest =>
    let log := attemptLoop net (max_retries - it.retry_count) n it.retry_count
    log.map (fun rc => (k, rc))
      ++ process_retry_queue net (n + log.length) rest

/-!
## Store — `database.py`
-/

/-- The store's state: the `notification_messages` and `webhook_logs`
collections as insertion-ordered lists of (ObjectId, document) pairs, a
fresh-id counter, and whether the MongoDB connection is up
(`_connection_ready`; reconnection attempts keep failing while the store
is down, so the flag is constant over one request). -/
structure DBState where
  connected : Bool
  notifDocs : List (Nat × PyVal)
  logDocs : List (Nat × PyVal)
  nextId : Nat
deriving Repr, DecidableEq

/-- `Database.insert_wh` (database.py, lines 97-127): with no connection it
returns the sentinel string `"error_no_connection_{time.time()}"` instead
of raising; otherwise it inserts into the notification collection when the
document's `event_type` field is `"notification_messages"` and into the
logs collection otherwise, returning the new ObjectId as a string. -/
def insert_wh (db : DBState) (time : Nat) (log : PyVal) : String × DBState :=
  if !db.connected then ("error_no_connection_" ++ toString time, db)
  else if log.get "event_type" = PyVal.str "notification_messages" then
    (toString db.nextId,
     { db with notifDocs := db.notifDocs ++ [(db.nextId, log)],
               nextId := db.nextId + 1 })
  else
    (toString db.nextId,
     { db with logDocs := db.logDocs ++ [(db.nextId, log)],
               nextId := db.nextId + 1 })

/-- The `find_one` dedup lookup of `process_webhook_data` (routes.py, lines
134-137): first notification document whose `event_type` is
`"notification_messages"` and whose `data.notification_messages_token`
equals the token. -/
def find_notif (docs : List (Nat × PyVal)) (token : PyVal) : Option (Nat × PyVal) :=
  docs.find? (fun p =>
    decide (p.2.get "event_type" = PyVal.str "notification_messages")
    && decide ((p.2.get "data").get "notification_messages_token" = token))

/-- The `update_one` / `$set {'data.notification_messages_status': s}` of
`process_webhook_data` (routes.py, lines 144-147) applied to one document. -/
def setDataStatus (doc : PyVal) (status : PyVal) : PyVal :=
  doc.setKey "data"
    ((doc.getD "data" (.dict [])).setKey "notification_messages_status" status)

/-!
## Ingestion Orchestrator — `routes.py`
-/

/-- Observable side effects of one `process_webhook_data` run:
`statusUpdates` records the status-only `update_one` calls as
(ObjectId, new status) pairs; `forwards` records each
`forward_to_backend` invocation as (document_id, `event_type` value,
`event_data`). -/
structure OrchestratorEffects where
  statusUpdates : List (Nat × PyVal)
  forwards : List (String × PyVal × PyVal)
deriving Repr, DecidableEq

/-- `process_webhook_data` (routes.py, lines 116-213).  `enableForwarding`
is `Config.ENABLE_FORWARDING` and `time_id` the request timestamp.  For a
token-bearing `notification_messages` event with a live store connection,
an existing document with the same token is updated in place
(status field only) and processing stops; otherwise the structured record
and a confirmation log are persisted via `insert_wh`, and
`forward_to_backend` is invoked when forwarding is enabled, the returned
`document_id` string is truthy (non-empty), and the event is not a
`notification_messages` event. -/
def process_webhook_data (enableForwarding : Bool) (time_id : Nat)
    (db : DBState) (structured_data : PyVal) : DBState × OrchestratorEffects :=
  let event_type := structured_data.get "event_type"
  let event_data := structured_data.getD "data" (.dict [])
  let dedupHit : Option (Nat × PyVal) :=
    if event_type = PyVal.str "notification_messages"
        ∧ event_data.hasKey "notification_messages_token" then
      let token := event_data.get "notification_messages_token"
      if token.truthy ∧ db.connected then find_notif db.notifDocs token
      else Option.none
    else Option.none
  match dedupHit with
  | Option.some (oid, _) =>
    let newStatus := event_data.get "notification_messages_status"
    let updatedDocs :=
      db.notifDocs.map
        (fun p => if p.1 = oid then (p.1, setDataStatus p.2 newStatus) else p)
    ({ db with notifDocs := updatedDocs },
     { statusUpdates := [(oid, newStatus)], forwards := [] })
  | Option.none =>
    let ins := insert_wh db time_id structured_data
    let document_id := ins.1
    let confirm_log : PyVal := .dict
      [ ("type", .str "fb_event_confirm")
      , ("time_id", .int time_id)
      , ("related_document_id", .str document_id)
      , ("event_type", event_type)
      , ("page_id", structured_data.get "page_id") ]
    let ins2 := insert_wh ins.2 time_id confirm_log
    if enableForwarding ∧ document_id ≠ ""
        ∧ event_type ≠ PyVal.str "notification_messages" then
      (ins2.2, { statusUpdates := [],
                 forwards := [(document_id, event_type, event_data)] })
    else
      (ins2.2, { statusUpdates := [], forwards := [] })

/-- An HTTP response produced by the endpoint handlers in routes.py. -/
structure HttpResponse where
  status : Nat
  content : String
deriving Repr, DecidableEq

/-- The GET verification endpoint `verify` (routes.py, lines 17-36):
echoes `hub.challenge` when `hub.mode == "subscribe"`, the challenge is
present and truthy, and `hub.verify_token` matches the configured
`VERIFY_TOKEN`; 403 on token mismatch; 400 when the arguments are
missing. -/
def verifyEndpoint (queryParams : List (String × String))
    (verifyToken : String) : HttpResponse :=
  let get := fun (k : String) => (queryParams.find? (fun p => p.1 = k)).map Prod.snd
  if get "hub.mode" = Option.some "subscribe"
      ∧ (get "hub.challenge").getD "" ≠ "" then
    if ¬ (get "hub.verify_token" = Option.some verifyToken) then
      { status := 403, content := "Verification token mismatch" }
    else
      { status := 200, content := (get "hub.challenge").getD "" }
  else
    { status := 400, content := "Required arguments haven't passed." }

/-- The POST webhook endpoint `webhook` (routes.py, lines 38-114).
`headers` carries the request headers — the handler never reads them (no
signature check exists in the source); `body` is the parsed JSON of the
raw body, `none` when parsing raises (the exception path, lines 102-114,
still answers 200).  The returned `Bool` is true when a background
`process_webhook_data` task is scheduled, i.e. when the event reached
classification and was not skipped. -/
def webhookEndpoint (headers : List (String × String)) (body : Option PyVal)
    (timeId : Nat) : HttpResponse × Bool :=
  match body with
  | Option.none => ({ status := 200, content := "error" }, false)
  | Option.some raw_data =>
    if raw_data.get "object" = PyVal.str "page" then
      match extract_structured_data timeId raw_data with
      | Option.none => ({ status := 200, content := "skipped" }, false)
      | Option.some _ =>
        ({ status := 200, content := "success" }, true)
    else ({ status := 200, content := "not_a_page_event" }, false)

/-!
## Auxiliary definitions for the stated properties
-/

/-- A change matches one of the five `field == "feed"` handler arms of
`_parse_changes_event` (webhook_parser.py, lines 120-137); unmatched
changes make the loop continue. -/
def isMatchingChange (change : PyVal) : Bool :=
  let value := change.getD "value" (.dict [])
  let field := change.getD "field" (.str "")
  decide (field = PyVal.str "feed")
    && (decide (value.get "item" = PyVal.str "comment")
        || decide (value.get "item" = PyVal.str "reaction")
        || decide (value.get "item" = PyVal.str "like")
        || (decide (value.get "item" = PyVal.str "status")
            && decide (value.get "verb" = PyVal.str "add"))
        || (decide (value.get "item" = PyVal.str "photo")
            && decide (value.get "verb" = PyVal.str "add")))

/-- A feed change whose `value` is the given dict. -/
def mkFeedChange (value : PyVal) : PyVal :=
  .dict [("field", .str "feed"), ("value", value)]

/-- A comment change on page "P" authored by the page itself
(`value.from.id == entry.id`). -/
def selfCommentValue : PyVal :=
  .dict [ ("item", .str "comment")
        , ("verb", .str "add")
        , ("from", .dict [("id", .str "P"), ("name", .str "Page P")])
        , ("post_id", .str "P_77")
        , ("comment_id", .str "P_77_1")
        , ("message", .str "thanks!") ]

/-- An entry of page "P" carrying only the self-authored comment change. -/
def selfCommentEntry : PyVal :=
  .dict [ ("id", .str "P")
        , ("changes", .list [mkFeedChange selfCommentValue]) ]

/-- An entry of page "P" carrying a plain direct message. -/
def messageEntry : PyVal :=
  .dict [ ("id", .str "P")
        , ("messaging", .list [ .dict
            [ ("sender", .dict [("id", .str "U")])
            , ("recipient", .dict [("id", .str "P")])
            , ("message", .dict [("mid", .str "m1"), ("text", .str "hi")])
            , ("timestamp", .int 1700000000) ] ]) ]

/-- A raw payload that contains the self-authored comment change, preceded
by an entry with a direct message. -/
def mixedPayload : PyVal :=
  .dict [("object", .str "page"), ("entry", .list [messageEntry, selfCommentEntry])]

/-- A raw payload whose only entry is the self-authored comment. -/
def selfCommentPayload : PyVal :=
  .dict [("object", .str "page"), ("entry", .list [selfCommentEntry])]

/-- An optin messaging item whose `notification_messages_status` is present
but the empty string. -/
def emptyStatusOptin : PyVal :=
  .dict [ ("sender", .dict [("id", .str "U")])
        , ("recipient", .dict [("id", .str "P")])
        , ("optin", .dict
            [ ("type", .str "notification_messages")
            , ("notification_messages_token", .str "TOK")
            , ("notification_messages_status", .str "") ]) ]

/-- An optin messaging item with an explicit `RESUME_NOTIFICATIONS` status. -/
def resumeStatusOptin : PyVal :=
  .dict [ ("sender", .dict [("id", .str "U")])
        , ("recipient", .dict [("id", .str "P")])
        , ("optin", .dict
            [ ("type", .str "notification_messages")
            , ("notification_messages_token", .str "TOK2")
            , ("notification_messages_status", .str "RESUME_NOTIFICATIONS") ]) ]

/-- The feed value of a reaction on post `"123_456"`. -/
def reactionValue : PyVal :=
  .dict [ ("item", .str "reaction")
        , ("verb", .str "add")
        , ("from", .dict [("id", .str "U"), ("name", .str "User U")])
        , ("post_id", .str "123_456")
        , ("reaction_type", .str "love")
        , ("created_time", .int 1700000005) ]

/-- The classified `data` of that reaction, as the Forwarder receives it. -/
def reactionData : PyVal :=
  (handle_reaction reactionValue (initStructuredData 0)).data

/-- A structured `notification_messages` event document with the given
token and status, as the background task receives it. -/
def notifEvent (page : PyVal) (token status : String) : PyVal :=
  .dict [ ("event_type", .str "notification_messages")
        , ("page_id", page)
        , ("data", .dict
            [ ("notification_messages_token", .str token)
            , ("notification_messages_status", .str status) ]) ]

/-!
## Theorems
-/

/-- C5: `should_process_async(event_type, data)` is true exactly when the
event type is one of comment / post_creation / photo_post (regardless of
data size), or one of the configured high-priority types order_created /
payment_received, or the serialized size of `data` exceeds 10,000 bytes
(regardless of event type); it is false otherwise. -/
theorem C5_should_process_async_policy (event_type : String) (data_size : Nat) :
    should_process_async event_type data_size = true ↔
      (event_type = "comment" ∨ event_type = "post_creation"
        ∨ event_type = "photo_post"
        ∨ event_type = "order_created" ∨ event_type = "payment_received"
        ∨ data_size > 10000) := by
  unfold should_process_async
  split_ifs <;> simp_all <;> tauto

/-- The queue grows by at most one slot per assignment (an existing key is
overwritten in place). -/
theorem retrySet_length_le (q : RetryQueue) (k : Nat) (it : RetryItem) :
    (retrySet q k it).length ≤ q.length + 1 := by
  induction q with
  | nil => simp [retrySet]
  | cons hd tl ih =>
    obtain ⟨k', it'⟩ := hd
    by_cases h : k' = k <;> simp [retrySet, h] <;> omega

/-- C4: `add_to_retry` preserves the capacity bound of 100 items; whenever
the queue already holds at least 100 items the new item is dropped with a
warning and the queue is left unchanged (no exception, no blocking); and
enqueueing 101 items with fresh keys into an empty, undrained queue
retains exactly 100 items and produces exactly one drop warning. -/
theorem C4_queue_capacity :
    (∀ (q : RetryQueue) (key : Nat) (data : PyVal) (rc : Nat),
        q.length ≤ max_queue_size →
        (add_to_retry q key data rc).1.length ≤ max_queue_size)
    ∧ (∀ (q : RetryQueue) (key : Nat) (data : PyVal) (rc : Nat),
        max_queue_size ≤ q.length → add_to_retry q key data rc = (q, true))
    ∧ ((enqueueAll ((List.range 101).map (fun i => (i, PyVal.null))) []).1.length = 100
        ∧ (enqueueAll ((List.range 101).map (fun i => (i, PyVal.null))) []).2 = 1) := by
  refine ⟨?_, ?_, ?_⟩
  · intro q key data rc hlen
    unfold add_to_retry
    split_ifs with h
    · exact hlen
    · have := retrySet_length_le q key { data := data, retry_count := rc }
      simp only [max_queue_size] at *
      omega
  · intro q key data rc h
    unfold add_to_retry
    rw [if_pos h]
  · constructor <;> decide

/-- Witness for C4 at concrete inputs: the capacity bound holds for the
empty queue, and a full 100-item queue rejects the 101st item unchanged. -/
theorem C4_queue_capacity_witness :
    (add_to_retry [] 0 PyVal.null 0).1.length ≤ max_queue_size
    ∧ add_to_retry ((List.range 100).map (fun i => (i, ⟨PyVal.null, 0⟩)))
        100 PyVal.null 0
        = ((List.range 100).map (fun i => (i, ⟨PyVal.null, 0⟩)), true) :=
  ⟨C4_queue_capacity.1 [] 0 PyVal.null 0 (by decide),
   C4_queue_capacity.2.1 ((List.range 100).map (fun i => (i, ⟨PyVal.null, 0⟩)))
     100 PyVal.null 0 (by decide)⟩

/-- Each entry of the attempt loop's log is below `rc + fuel`. -/
theorem attemptLoop_mem_lt (net : Nat → Bool) :
    ∀ (fuel n rc : Nat), ∀ x ∈ attemptLoop net fuel n rc, x < rc + fuel := by
  intro fuel
  induction fuel with
  | zero => intro n rc x hx; simp [attemptLoop] at hx
  | succ f ih =>
    intro n rc x hx
    simp only [attemptLoop] at hx
    split_ifs at hx with h
    · simp at hx; omega
    · rcases List.mem_cons.mp hx with h1 | h1
      · omega
      · have := ih (n + 1) (rc + 1) x h1
        omega

/-- The attempt loop makes at most `fuel` attempts. -/
theorem attemptLoop_length_le (net : Nat → Bool) :
    ∀ (fuel n rc : Nat), (attemptLoop net fuel n rc).length ≤ fuel := by
  intro fuel
  induction fuel with
  | zero => intro n rc; simp [attemptLoop]
  | succ f ih =>
    intro n rc
    simp only [attemptLoop]
    split_ifs with h
    · simp
    · simpa using ih (n + 1) (rc + 1)

/-- A key absent from the queue never appears in the drain's attempt log. -/
theorem process_retry_queue_filter_not_mem (net : Nat → Bool) :
    ∀ (q : RetryQueue) (n k : Nat), k ∉ q.map Prod.fst →
      (process_retry_queue net n q).filter (fun p => p.1 == k) = [] := by
  intro q
  induction q with
  | nil => intro n k h; simp [process_retry_queue]
  | cons hd tl ih =>
    intro n k h
    obtain ⟨k', it'⟩ := hd
    simp only [List.map_cons, List.mem_cons] at h
    push_neg at h
    simp only [process_retry_queue, List.filter_append]
    rw [ih _ k h.2, List.append_nil, List.filter_eq_nil_iff]
    intro p hp
    simp only [List.mem_map] at hp
    obtain ⟨rc, _, hrc⟩ := hp
    subst hrc
    simpa using fun he => h.1 he.symm

/-- Per-key attempt bound: a queued item with `retry_count = r` whose key is
unique in the queue is attempted at most `max_retries - r` times over a
full drain. -/
theorem process_retry_queue_count_le (net : Nat → Bool) :
    ∀ (q : RetryQueue) (n k : Nat) (it : RetryItem),
      (q.map Prod.fst).Nodup → (k, it) ∈ q →
      ((process_retry_queue net n q).filter (fun p => p.1 == k)).length
        ≤ max_retries - it.retry_count := by
  intro q
  induction q with
  | nil => intro n k it _ hmem; simp at hmem
  | cons hd tl ih =>
    intro n k it hnodup hmem
    obtain ⟨k', it'⟩ := hd
    simp only [List.map_cons, List.nodup_cons] at hnodup
    simp only [process_retry_queue, List.filter_append, List.length_append]
    rcases List.mem_cons.mp hmem with heq | hmemtl
    · obtain ⟨hk, hit⟩ := (Prod.mk.injEq k it k' it') ▸ heq
      subst hk; subst hit
      rw [process_retry_queue_filter_not_mem net tl _ k hnodup.1]
      have hlen := attemptLoop_length_le net (max_retries - it.retry_count) n it.retry_count
      have hfl : ((attemptLoop net (max_retries - it.retry_count) n
          it.retry_count).map (fun rc => (k, rc))).filter (fun p => p.1 == k)
          = (attemptLoop net (max_retries - it.retry_count) n it.retry_count).map
              (fun rc => (k, rc)) := by
        rw [List.filter_eq_self]
        intro p hp
        simp only [List.mem_map] at hp
        obtain ⟨rc, _, hrc⟩ := hp
        subst hrc
        simp
      rw [hfl]
      simpa using hlen
    · have hkne : k' ≠ k := by
        intro he
        exact hnodup.1 (he ▸ (List.mem_map.mpr ⟨(k, it), hmemtl, rfl⟩))
      have hzero : ((attemptLoop net (max_retries - it'.retry_count) n
          it'.retry_count).map (fun rc => (k', rc))).filter (fun p => p.1 == k)
          = [] := by
        rw [List.filter_eq_nil_iff]
        intro p hp
        simp only [List.mem_map] at hp
        obtain ⟨rc, _, hrc⟩ := hp
        subst hrc
        simpa using hkne
      rw [hzero]
      simpa using ih _ k it hnodup.2 hmemtl

/-- Every attempt in the drain log happens at a `retry_count` below
`max_retries`. -/
theorem process_retry_queue_rc_lt (net : Nat → Bool) :
    ∀ (q : RetryQueue) (n : Nat), ∀ p ∈ process_retry_queue net n q,
      p.2 < max_retries := by
  intro q
  induction q with
  | nil => intro n p hp; simp [process_retry_queue] at hp
  | cons hd tl ih =>
    intro n p hp
    obtain ⟨k', it'⟩ := hd
    simp only [process_retry_queue, List.mem_append] at hp
    rcases hp with hp | hp
    · simp only [List.mem_map] at hp
      obtain ⟨rc, hrc, hprc⟩ := hp
      subst hprc
      by_cases hlt : it'.retry_count < max_retries
      · have := attemptLoop_mem_lt net (max_retries - it'.retry_count) n
          it'.retry_count rc hrc
        simp only [max_retries] at *
        omega
      · have hz : max_retries - it'.retry_count = 0 := by omega
        rw [hz] at hrc
        simp [attemptLoop] at hrc
    · exact ih _ p hp

/-- C3: over a full drain of the retry queue, a queued item entering with
`retry_count = 0` (as every item enqueued by `add_to_retry`'s default does)
is attempted at most 3 times — exhaustion deletes it rather than
re-enqueueing it — and every attempt in the log happens at a stored
`retry_count` in {0, 1, 2}, so no item's attempt counter ever reaches a
4th attempt. -/
theorem C3_retry_never_fourth_attempt (net : Nat → Bool) (n : Nat)
    (q : RetryQueue) (k : Nat) (it : RetryItem)
    (hnodup : (q.map Prod.fst).Nodup) (hmem : (k, it) ∈ q)
    (hfresh : it.retry_count = 0) :
    ((process_retry_queue net n q).filter (fun p => p.1 == k)).length ≤ 3
    ∧ ∀ p ∈ process_retry_queue net n q, p.2 < 3 := by
  constructor
  · have := process_retry_queue_count_le net q n k it hnodup hmem
    rw [hfresh] at this
    simpa [max_retries] using this
  · intro p hp
    have := process_retry_queue_rc_lt net q n p hp
    simpa [max_retries] using this

/-- Witness for C3: a single fresh item against an always-failing backend
is attempted exactly on counts 0, 1, 2 and never again. -/
theorem C3_retry_never_fourth_attempt_witness :
    ((process_retry_queue (fun _ => false) 0 [(5, ⟨PyVal.null, 0⟩)]).filter
        (fun p => p.1 == 5)).length ≤ 3
    ∧ ∀ p ∈ process_retry_queue (fun _ => false) 0 [(5, ⟨PyVal.null, 0⟩)],
        p.2 < 3 :=
  C3_retry_never_fourth_attempt (fun _ => false) 0 [(5, ⟨PyVal.null, 0⟩)]
    5 ⟨PyVal.null, 0⟩ (by decide) (by decide) rfl

/-- C1 counterexample: the claim asserts that a failed delivery attempt's
payload is handed to the Retry Queue Manager.  In the source,
`forward_to_backend` never invokes `RetryManager.add_to_retry` (which has
no call sites at all outside retry_manager.py): a 500 response only runs
the print-only `log_failed_forward` stub, and a connection error returns
failure without even that call — so the failure-handling half of the claim
is false at these concrete inputs. -/
theorem C1_counterexample_no_retry_handoff :
    ((forward_to_backend true "doc1" "message" (.dict [("text", .str "hi")]) 24
        (.status 500 "Internal Server Error" Option.none)).1.success = false
      ∧ (forward_to_backend true "doc1" "message" (.dict [("text", .str "hi")]) 24
          (.status 500 "Internal Server Error" Option.none)).2.logFailedForwardCalled = true
      ∧ (forward_to_backend true "doc1" "message" (.dict [("text", .str "hi")]) 24
          (.status 500 "Internal Server Error" Option.none)).2.addToRetryCalled = false)
    ∧ ((forward_to_backend true "doc1" "message" (.dict [("text", .str "hi")]) 24
          (.connectError "refused")).1.success = false
      ∧ (forward_to_backend true "doc1" "message" (.dict [("text", .str "hi")]) 24
          (.connectError "refused")).2.logFailedForwardCalled = false
      ∧ (forward_to_backend true "doc1" "message" (.dict [("text", .str "hi")]) 24
          (.connectError "refused")).2.addToRetryCalled = false) := by
  decide

/-- C1 as amended: with forwarding enabled, a 200 whose body is empty or
valid JSON yields success with sync=true; 201/202 yield success with
sync=false; any other status code yields failure with `log_failed_forward`
invoked (a print-only stub); a 200 with a non-empty non-JSON body raises in
`response.json()` and is classified as failure through the same stub; a
connection error or timeout yields failure without even that call; and in
no case is the payload handed to the Retry Queue Manager
(`add_to_retry` is never invoked from this path). -/
theorem C1_forward_outcome_amended (document_id event_type : String)
    (data : PyVal) (data_size : Nat) (res : NetResult) :
    (forward_to_backend true document_id event_type data data_size
        res).2.addToRetryCalled = false
    ∧ (∀ text body, res = .status 200 text body →
        (text = "" ∨ body ≠ Option.none) →
        (forward_to_backend true document_id event_type data data_size
            res).1.success = true
        ∧ (forward_to_backend true document_id event_type data data_size
            res).1.sync = Option.some true)
    ∧ (∀ code text body, res = .status code text body →
        (code = 201 ∨ code = 202) →
        (forward_to_backend true document_id event_type data data_size
            res).1.success = true
        ∧ (forward_to_backend true document_id event_type data data_size
            res).1.sync = Option.some false)
    ∧ (∀ code text body, res = .status code text body →
        code ≠ 200 → code ≠ 201 → code ≠ 202 →
        (forward_to_backend true document_id event_type data data_size
            res).1.success = false
        ∧ (forward_to_backend true document_id event_type data data_size
            res).2.logFailedForwardCalled = true)
    ∧ (∀ text, res = .status 200 text Option.none → text ≠ "" →
        (forward_to_backend true document_id event_type data data_size
            res).1.success = false
        ∧ (forward_to_backend true document_id event_type data data_size
            res).2.logFailedForwardCalled = true)
    ∧ (∀ msg, res = .connectError msg ∨ res = .timeoutError msg →
        (forward_to_backend true document_id event_type data data_size
            res).1.success = false
        ∧ (forward_to_backend true document_id event_type data data_size
            res).2.logFailedForwardCalled = false) := by
  refine ⟨?_, ?_, ?_, ?_, ?_, ?_⟩
  · cases res with
    | status code text body =>
      simp only [forward_to_backend]
      split_ifs <;> rfl
    | connectError msg => rfl
    | timeoutError msg => rfl
  · intro text body hres hok
    subst hres
    rcases hok with h | h
    · subst h
      simp [forward_to_backend]
    · simp [forward_to_backend, h]
  · intro code text body hres hcode
    subst hres
    rcases hcode with h | h <;> subst h <;> simp [forward_to_backend]
  · intro code text body hres h200 h201 h202
    subst hres
    simp [forward_to_backend, h200, h201, h202]
  · intro text hres htext
    subst hres
    simp [forward_to_backend, htext]
  · intro msg hres
    rcases hres with h | h <;> subst h <;> exact ⟨rfl, rfl⟩

/-- Witness for C1 (amended) at concrete inputs covering a sync success,
an async acceptance, a logged non-2xx failure, and an unlogged connection
failure, all with no retry hand-off. -/
theorem C1_forward_outcome_amended_witness :
    (forward_to_backend true "d" "message" (.dict []) 0
        (.status 200 "" Option.none)).1.success = true
    ∧ (forward_to_backend true "d" "message" (.dict []) 0
        (.status 202 "Accepted" Option.none)).1.sync = Option.some false
    ∧ (forward_to_backend true "d" "message" (.dict []) 0
        (.status 503 "unavailable" Option.none)).2.logFailedForwardCalled = true
    ∧ (forward_to_backend true "d" "message" (.dict []) 0
        (.connectError "down")).2.logFailedForwardCalled = false
    ∧ (forward_to_backend true "d" "message" (.dict []) 0
        (.status 503 "unavailable" Option.none)).2.addToRetryCalled = false :=
  ⟨((C1_forward_outcome_amended "d" "message" (.dict []) 0
      (.status 200 "" Option.none)).2.1 "" Option.none rfl (Or.inl rfl)).1,
   ((C1_forward_outcome_amended "d" "message" (.dict []) 0
      (.status 202 "Accepted" Option.none)).2.2.1 202 "Accepted" Option.none rfl
      (Or.inr rfl)).2,
   ((C1_forward_outcome_amended "d" "message" (.dict []) 0
      (.status 503 "unavailable" Option.none)).2.2.2.1 503 "unavailable"
      Option.none rfl (by decide) (by decide) (by decide)).2,
   ((C1_forward_outcome_amended "d" "message" (.dict []) 0
      (.connectError "down")).2.2.2.2.2 "down" (Or.inl rfl)).2,
   (C1_forward_outcome_amended "d" "message" (.dict []) 0
      (.status 503 "unavailable" Option.none)).1⟩

/-- C8 counterexample: the claim asserts that the metadata payload for an
async-dispatched reaction on post_id "123_456" contains page_id "123" and
post_number "456".  Those fields live in the classifier's `data` (where
`handle_reaction` puts the two halves of the post id), but
`extract_essential_metadata` for a reaction copies only sender_id,
post_id and reaction_type — the metadata carries no `page_id` or
`post_number` key at all, even though async dispatch is selectable for a
reaction (serialized size over the threshold). -/
theorem C8_counterexample_metadata_lacks_page_id :
    should_process_async "reaction" 20000 = true
    ∧ (handle_reaction reactionValue (initStructuredData 0)).data.get "post_id"
        = PyVal.str "123_456"
    ∧ (handle_reaction reactionValue (initStructuredData 0)).data.get "page_id"
        = PyVal.str "123"
    ∧ (handle_reaction reactionValue (initStructuredData 0)).data.get "post_number"
        = PyVal.str "456"
    ∧ (extract_essential_metadata "reaction" reactionData).hasKey "page_id" = false
    ∧ (extract_essential_metadata "reaction" reactionData).hasKey "post_number" = false := by
  refine ⟨rfl, ?_, ?_, ?_, ?_, ?_⟩ <;> decide

/-- C8 as amended: classifying a reaction on post_id "123_456" yields data
with page_id "123" and post_number "456" (the halves around the first
underscore), but the Metadata Extractor's payload for a reaction — sent
when async dispatch is selected — never contains `page_id` or
`post_number` keys for any data; it consists of source, sender_id,
post_id, reaction_type and the two metadata flags. -/
theorem C8_reaction_metadata_amended (data : PyVal) :
    (extract_essential_metadata "reaction" data).hasKey "page_id" = false
    ∧ (extract_essential_metadata "reaction" data).hasKey "post_number" = false
    ∧ (handle_reaction reactionValue (initStructuredData 0)).data.get "page_id"
        = PyVal.str "123"
    ∧ (handle_reaction reactionValue (initStructuredData 0)).data.get "post_number"
        = PyVal.str "456"
    ∧ extract_essential_metadata "reaction" reactionData
        = PyVal.dict
            [ ("source", .str "facebook_webhook")
            , ("sender_id", .str "U")
            , ("post_id", .str "123_456")
            , ("reaction_type", .str "love")
            , ("is_metadata_only", .bool true)
            , ("full_data_available_in_db", .bool true) ] := by
  refine ⟨?_, ?_, by decide, by decide, by decide⟩ <;>
    simp [extract_essential_metadata, copyField, PyVal.hasKey]

/-- C7 counterexample: the claim asserts NOT_AVAILABLE whenever the
incoming status is present and not RESUME_NOTIFICATIONS.  For an optin
whose `notification_messages_status` is present but the empty string, the
source's truthiness test (`not current_status`, webhook_parser.py line
174) treats the value as absent and derives AVAILABLE, not
NOT_AVAILABLE. -/
theorem C7_counterexample_empty_status :
    (emptyStatusOptin.getD "optin" (.dict [])).hasKey "notification_messages_status" = true
    ∧ (emptyStatusOptin.getD "optin" (.dict [])).get "notification_messages_status"
        = PyVal.str ""
    ∧ ("" : String) ≠ "RESUME_NOTIFICATIONS"
    ∧ (handle_notification_messages emptyStatusOptin (initStructuredData 0)).map
        (fun r => r.data.get "notification_messages_status")
        = Option.some (PyVal.str "AVAILABLE") := by
  refine ⟨rfl, rfl, by decide, ?_⟩
  decide

/-- C7 as amended: whenever `handle_notification_messages` classifies an
optin event (so `optin.type == "notification_messages"`), the derived
status is AVAILABLE when the incoming status is absent, the empty string,
or RESUME_NOTIFICATIONS, and NOT_AVAILABLE when it is any non-empty string
other than RESUME_NOTIFICATIONS. -/
theorem C7_notification_status_amended (messaging : PyVal)
    (sd : StructuredData) (r : StructuredData)
    (h : handle_notification_messages messaging sd = Option.some r) :
    ((((messaging.getD "optin" (.dict [])).get "notification_messages_status")
          = PyVal.null
        ∨ ((messaging.getD "optin" (.dict [])).get "notification_messages_status")
          = PyVal.str ""
        ∨ ((messaging.getD "optin" (.dict [])).get "notification_messages_status")
          = PyVal.str "RESUME_NOTIFICATIONS") →
      r.data.get "notification_messages_status" = PyVal.str "AVAILABLE")
    ∧ (∀ s : String,
        ((messaging.getD "optin" (.dict [])).get "notification_messages_status")
          = PyVal.str s →
        s ≠ "" → s ≠ "RESUME_NOTIFICATIONS" →
        r.data.get "notification_messages_status" = PyVal.str "NOT_AVAILABLE") := by
  simp only [handle_notification_messages] at h
  split_ifs at h with htype hstat
  · rw [Option.some.injEq] at h
    subst h
    constructor
    · intro _
      simp [PyVal.get]
    · intro s hcs hne hnres
      rcases hstat with hs | hs
      · rw [hcs] at hs
        simp [PyVal.truthy, hne] at hs
      · rw [hcs] at hs
        injection hs with hs'
        exact absurd hs' hnres
  · rw [Option.some.injEq] at h
    subst h
    constructor
    · intro hc
      exfalso
      apply hstat
      rcases hc with hc | hc | hc
      · left; rw [hc]; rfl
      · left; rw [hc]; rfl
      · right; exact hc
    · intro s hcs hne hnres
      simp [PyVal.get]

/-- Witness for C7 (amended) at a concrete optin carrying an explicit
RESUME_NOTIFICATIONS status: the derived status is AVAILABLE. -/
theorem C7_notification_status_amended_witness :
    (handle_notification_messages resumeStatusOptin (initStructuredData 0)).map
      (fun r => r.data.get "notification_messages_status")
      = Option.some (PyVal.str "AVAILABLE") := by
  obtain ⟨r, hr⟩ : ∃ r, handle_notification_messages resumeStatusOptin
      (initStructuredData 0) = Option.some r := ⟨_, rfl⟩
  rw [hr]
  have hs := (C7_notification_status_amended resumeStatusOptin
    (initStructuredData 0) r hr).1 (Or.inr (Or.inr (by decide)))
  simp [hs]

/-- C9 counterexample: the claim asserts a 403 on signature mismatch.  The
POST webhook handler in routes.py performs no signature verification at
all — it never reads the request headers — so a page-event request
carrying an arbitrary (necessarily non-matching) `sha256=` signature
header is answered 200, not 403, and its event still reaches
classification and background processing. -/
theorem C9_counterexample_signature_ignored :
    (webhookEndpoint [("X-Hub-Signature-256", "sha256=0badc0de")]
        (Option.some (.dict [("object", .str "page"), ("entry", .list [messageEntry])]))
        0).1.status = 200
    ∧ (webhookEndpoint [("X-Hub-Signature-256", "sha256=0badc0de")]
        (Option.some (.dict [("object", .str "page"), ("entry", .list [messageEntry])]))
        0).2 = true := by
  constructor <;> decide

/-- C9 as amended: the POST webhook endpoint applies no signature check and
answers 200 for every request — any headers, any body, including the
JSON-parse-failure path — so no POST is ever rejected with 403; the only
403 in routes.py is the GET verification endpoint's verify-token mismatch
(shown at a concrete mismatching query). -/
theorem C9_webhook_always_200_amended (headers : List (String × String))
    (body : Option PyVal) (timeId : Nat) :
    (webhookEndpoint headers body timeId).1.status = 200
    ∧ verifyEndpoint
        [ ("hub.mode", "subscribe"), ("hub.challenge", "challenge-token")
        , ("hub.verify_token", "wrong-token") ] "secret-token"
        = { status := 403, content := "Verification token mismatch" } := by
  constructor
  · cases body with
    | none => rfl
    | some raw =>
      simp only [webhookEndpoint]
      split_ifs with h
      · split <;> rfl
      · rfl
  · decide

/-- The no-connection sentinel id is a non-empty string. -/
theorem errSentinel_ne_empty (s : String) :
    ("error_no_connection_" ++ s) ≠ "" := by
  intro h
  have hl := congrArg String.length h
  rw [String.length_append] at hl
  have h20 : ("error_no_connection_" : String).length = 20 := rfl
  have h0 : ("" : String).length = 0 := rfl
  rw [h20, h0] at hl
  omega

/-- C10: when the store is unavailable, `insert_wh` returns (instead of
raising) the non-empty sentinel string `"error_no_connection_{time}"`,
which is prefixed `"error_"`; because that sentinel is truthy, the
orchestrator's `document_id` guard does not suppress forwarding, so a
non-notification event with forwarding enabled is still forwarded with the
sentinel as its document_id — while the store keeps no document at all
(the final store state equals the initial one). -/
theorem C10_sentinel_forwarding (db : DBState) (time : Nat) (sd : PyVal)
    (hconn : db.connected = false)
    (het : sd.get "event_type" ≠ PyVal.str "notification_messages") :
    (insert_wh db time sd).1 = "error_no_connection_" ++ toString time
    ∧ (∃ suffix, (insert_wh db time sd).1 = "error_" ++ suffix)
    ∧ (insert_wh db time sd).1 ≠ ""
    ∧ (process_webhook_data true time db sd).2.forwards
        = [((insert_wh db time sd).1, sd.get "event_type",
            sd.getD "data" (.dict []))]
    ∧ (process_webhook_data true time db sd).1 = db := by
  have hins : insert_wh db time sd
      = ("error_no_connection_" ++ toString time, db) := by
    simp [insert_wh, hconn]
  have hne : ("error_no_connection_" ++ toString time) ≠ "" :=
    errSentinel_ne_empty _
  have hpr : process_webhook_data true time db sd
      = (db, { statusUpdates := [],
               forwards := [("error_no_connection_" ++ toString time,
                 sd.get "event_type", sd.getD "data" (.dict []))] }) := by
    simp only [process_webhook_data]
    rw [if_neg (fun hc => het hc.1)]
    simp only [hins]
    have hins2 : ∀ lg : PyVal, insert_wh db time lg
        = ("error_no_connection_" ++ toString time, db) := by
      intro lg
      simp [insert_wh, hconn]
    simp only [hins2]
    rw [if_pos ⟨trivial, hne, het⟩]
  refine ⟨by rw [hins], ?_, by rw [hins]; exact hne, by rw [hpr, hins], by rw [hpr]⟩
  refine ⟨"no_connection_" ++ toString time, ?_⟩
  rw [hins]
  have hsplit : ("error_no_connection_" : String) = "error_" ++ "no_connection_" := rfl
  rw [hsplit, String.append_assoc]

/-- Witness for C10 at a concrete disconnected store and a concrete
message event. -/
theorem C10_sentinel_forwarding_witness :
    (insert_wh ⟨false, [], [], 0⟩ 7
        (.dict [("event_type", .str "message"), ("data", .dict [("x", .int 1)])])).1
      = "error_no_connection_" ++ toString 7
    ∧ (process_webhook_data true 7 ⟨false, [], [], 0⟩
        (.dict [("event_type", .str "message"), ("data", .dict [("x", .int 1)])])).2.forwards
      = [((insert_wh ⟨false, [], [], 0⟩ 7
            (.dict [("event_type", .str "message"), ("data", .dict [("x", .int 1)])])).1,
          (PyVal.dict [("event_type", .str "message"),
            ("data", .dict [("x", .int 1)])]).get "event_type",
          (PyVal.dict [("event_type", .str "message"),
            ("data", .dict [("x", .int 1)])]).getD "data" (.dict []))] :=
  ⟨(C10_sentinel_forwarding ⟨false, [], [], 0⟩ 7
      (.dict [("event_type", .str "message"), ("data", .dict [("x", .int 1)])])
      rfl (by decide)).1,
   (C10_sentinel_forwarding ⟨false, [], [], 0⟩ 7
      (.dict [("event_type", .str "message"), ("data", .dict [("x", .int 1)])])
      rfl (by decide)).2.2.2.1⟩

/-- C6: submitting the same `notification_messages_token` twice (statuses
`s1` then `s2`) against an initially empty, connected store inserts the
token-bearing event document exactly once (the first run also persists the
derived confirmation record, as the orchestrator does for every event, but
no second token-bearing document ever appears); the second run performs
exactly one status-only update of the existing document and stops without
inserting anything (`nextId` unchanged); and neither run invokes
`forward_to_backend` — notification_messages events are never forwarded,
even on first submission. -/
theorem C6_notification_idempotency (t s1 s2 : String) (page : PyVal)
    (ht : t ≠ "") :
    let db0 : DBState := ⟨true, [], [], 0⟩
    let r1 := process_webhook_data true 100 db0 (notifEvent page t s1)
    let r2 := process_webhook_data true 200 r1.1 (notifEvent page t s2)
    r1.2.forwards = []
    ∧ r1.2.statusUpdates = []
    ∧ (r1.1.notifDocs.filter (fun p =>
        decide ((p.2.get "data").get "notification_messages_token"
          = PyVal.str t))).length = 1
    ∧ r2.2.forwards = []
    ∧ r2.2.statusUpdates = [(0, PyVal.str s2)]
    ∧ r2.1.nextId = r1.1.nextId
    ∧ (r2.1.notifDocs.filter (fun p =>
        decide ((p.2.get "data").get "notification_messages_token"
          = PyVal.str t))).length = 1 := by
  intro db0 r1 r2
  have hr1 : r1 = (⟨true,
      [(0, notifEvent page t s1),
       (1, .dict [ ("type", .str "fb_event_confirm"), ("time_id", .int 100)
                 , ("related_document_id", .str "0")
                 , ("event_type", .str "notification_messages")
                 , ("page_id", page) ])], [], 2⟩,
      { statusUpdates := [], forwards := [] }) := by
    show process_webhook_data true 100 db0 (notifEvent page t s1) = _
    simp [process_webhook_data, insert_wh, find_notif, notifEvent,
      PyVal.get, PyVal.getD, PyVal.hasKey, PyVal.truthy]
    decide
  have hr2 : r2 = (⟨true,
      [(0, setDataStatus (notifEvent page t s1) (.str s2)),
       (1, .dict [ ("type", .str "fb_event_confirm"), ("time_id", .int 100)
                 , ("related_document_id", .str "0")
                 , ("event_type", .str "notification_messages")
                 , ("page_id", page) ])], [], 2⟩,
      { statusUpdates := [(0, PyVal.str s2)], forwards := [] }) := by
    show process_webhook_data true 200 r1.1 (notifEvent page t s2) = _
    rw [hr1]
    simp [process_webhook_data, insert_wh, find_notif, notifEvent,
      PyVal.get, PyVal.getD, PyVal.hasKey, PyVal.truthy, ht]
  rw [hr1, hr2]
  refine ⟨rfl, rfl, ?_, rfl, rfl, rfl, ?_⟩ <;>
    simp [notifEvent, setDataStatus, PyVal.get, PyVal.getD, PyVal.setKey,
      setField]

/-- Witness for C6 at a concrete token and statuses. -/
theorem C6_notification_idempotency_witness :
    (process_webhook_data true 100 ⟨true, [], [], 0⟩
        (notifEvent (PyVal.str "P") "tok" "AVAILABLE")).2.forwards = []
    ∧ (process_webhook_data true 200
        (process_webhook_data true 100 ⟨true, [], [], 0⟩
          (notifEvent (PyVal.str "P") "tok" "AVAILABLE")).1
        (notifEvent (PyVal.str "P") "tok" "NOT_AVAILABLE")).2.statusUpdates
      = [(0, PyVal.str "NOT_AVAILABLE")] :=
  have h := C6_notification_idempotency "tok" "AVAILABLE" "NOT_AVAILABLE"
    (PyVal.str "P") (by decide)
  ⟨h.1, h.2.2.2.2.1⟩

/-- A key that `hasKey` denies makes `getD` return its default. -/
theorem hasKey_false_getD (v : PyVal) (k : String) (d : PyVal)
    (h : v.hasKey k = false) : v.getD k d = d := by
  rcases v with _ | b | n | s | xs | fs
  · rfl
  · rfl
  · rfl
  · rfl
  · rfl
  · have hf : fs.find? (fun p => decide (p.1 = k)) = Option.none := by
      rw [List.find?_eq_none]
      intro x hx
      simp only [decide_eq_true_eq]
      intro he
      have hany : fs.any (fun p => decide (p.1 = k)) = true :=
        List.any_eq_true.mpr ⟨x, hx, by simp [he]⟩
      rw [show PyVal.hasKey (.dict fs) k = fs.any (fun p => decide (p.1 = k))
        from rfl, hany] at h
      exact Bool.noConfusion h
    show PyVal.getD (.dict fs) k d = d
    simp [PyVal.getD, hf]

/-- An unmatched change makes `_parse_changes_event`'s loop continue to the
next change. -/
theorem parse_changes_skip (sd : StructuredData) (cs : List PyVal) (c : PyVal)
    (h : isMatchingChange c = false) :
    parse_changes_list sd (c :: cs) = parse_changes_list sd cs := by
  simp only [isMatchingChange] at h
  simp only [parse_changes_list]
  split_ifs with h1 h2 h3 h4 h5 h6 <;> simp_all

/-- A prefix of unmatched changes is skipped wholesale. -/
theorem parse_changes_append_skip (sd : StructuredData) (l : List PyVal) :
    ∀ pre : List PyVal, (∀ c ∈ pre, isMatchingChange c = false) →
      parse_changes_list sd (pre ++ l) = parse_changes_list sd l := by
  intro pre
  induction pre with
  | nil => intro _; rfl
  | cons c cs ih =>
    intro h
    rw [List.cons_append,
      parse_changes_skip sd (cs ++ l) c (h c (by simp)),
      ih (fun x hx => h x (by simp [hx]))]

/-- C2 counterexample: the claim quantifies over every raw payload
containing a self-authored comment change, but classification stops at the
first definitive event: in a payload whose first entry carries a direct
message and whose second entry is the self-authored comment change,
`extract_structured_data` returns the message event, not `null`. -/
theorem C2_counterexample_earlier_entry_wins :
    selfCommentValue.get "item" = PyVal.str "comment"
    ∧ (selfCommentValue.getD "from" (.dict [])).get "id" = selfCommentEntry.get "id"
    ∧ (mixedPayload.getD "entry" (.list [])).toListD.getD 1 PyVal.null
        = selfCommentEntry
    ∧ (extract_structured_data 0 mixedPayload).map (fun r => r.event_type)
        = Option.some "message"
    ∧ extract_structured_data 0 mixedPayload ≠ Option.none := by
  refine ⟨rfl, rfl, rfl, by decide, by decide⟩

/-- C2 as amended: whenever classification reaches the self-authored
comment — the comment change is in the first entry, that entry has no
messaging list, and no earlier change in it matches any handler — and the
comment author id (`value.from.id`) equals the entry's page id,
`extract_structured_data` returns `null` for the entire classification;
and no other feed event kind is suppressed by the author-equals-page rule:
reaction, like, status-add and photo-add changes always classify to an
event, whatever their `from.id`. -/
theorem C2_self_comment_suppression_amended
    (timeId : Nat) (raw entry change value : PyVal)
    (rest pre post : List PyVal)
    (hentries : (raw.getD "entry" (.list [])).toListD = entry :: rest)
    (hnomsg : entry.hasKey "messaging" = false)
    (hchanges : (entry.getD "changes" (.list [])).toListD = pre ++ change :: post)
    (hpre : ∀ c ∈ pre, isMatchingChange c = false)
    (hfield : change.getD "field" (.str "") = PyVal.str "feed")
    (hvalue : change.getD "value" (.dict []) = value)
    (hitem : value.get "item" = PyVal.str "comment")
    (hfrom : (value.getD "from" (.dict [])).get "id" = entry.get "id") :
    extract_structured_data timeId raw = Option.none
    ∧ (∀ v sd, v.get "item" = PyVal.str "reaction" →
        (parse_changes_list sd [mkFeedChange v]).isSome = true)
    ∧ (∀ v sd, v.get "item" = PyVal.str "like" →
        (parse_changes_list sd [mkFeedChange v]).isSome = true)
    ∧ (∀ v sd, v.get "item" = PyVal.str "status" →
        v.get "verb" = PyVal.str "add" →
        (parse_changes_list sd [mkFeedChange v]).isSome = true)
    ∧ (∀ v sd, v.get "item" = PyVal.str "photo" →
        v.get "verb" = PyVal.str "add" →
        (parse_changes_list sd [mkFeedChange v]).isSome = true) := by
  refine ⟨?_, ?_, ?_, ?_, ?_⟩
  · have hkc : entry.hasKey "changes" = true := by
      by_contra hk
      rw [Bool.not_eq_true] at hk
      rw [hasKey_false_getD entry "changes" (.list []) hk] at hchanges
      simp [PyVal.toListD] at hchanges
    have hpc : parse_changes_event entry
        { initStructuredData timeId with page_id := entry.get "id" }
        = Option.none := by
      unfold parse_changes_event
      rw [hchanges, parse_changes_append_skip _ _ _ hpre]
      simp only [parse_changes_list, hvalue, hfield, hitem]
      simp [handle_comment, hfrom]
    unfold extract_structured_data
    rw [hentries]
    simp only [classifyEntries, hnomsg, hkc, hpc]
    simp
  · intro v sd h
    simp [parse_changes_list, mkFeedChange, PyVal.getD, h]
  · intro v sd h
    simp [parse_changes_list, mkFeedChange, PyVal.getD, h]
  · intro v sd h hv
    simp [parse_changes_list, mkFeedChange, PyVal.getD, h, hv]
  · intro v sd h hv
    simp [parse_changes_list, mkFeedChange, PyVal.getD, h, hv]

/-- Witness for C2 (amended): a payload whose single entry holds only the
self-authored comment change classifies to `null`. -/
theorem C2_self_comment_suppression_amended_witness :
    extract_structured_data 0 selfCommentPayload = Option.none :=
  (C2_self_comment_suppression_amended 0 selfCommentPayload selfCommentEntry
    (mkFeedChange selfCommentValue) selfCommentValue [] [] []
    rfl rfl rfl (fun c hc => absurd hc (List.not_mem_nil c))
    rfl rfl rfl rfl).1
